/-
Verification of the sovereign-architect (OLO Core) fragility engine.

Shallow embedding of `src/core/lagrangian.rs` and
`src/simulation/monte_carlo.rs` over exact real arithmetic (`f64` values
are modelled as real numbers; `f64` operations as the corresponding real
operations).

Schema note: the repository declares a single `BankState` (in
`lagrangian.rs`) with fields `tier1_capital`, `total_assets`,
`liquidity_coverage`, `entropy_index`, while `monte_carlo.rs` constructs
it with field names `assets`, `liabilities`, `equity`, `leverage`.  The
spec resolves this: the capital/liquidity/entropy variant is canonical,
and the four shock components of a path are applied positionally, one per
field.
-/
import Mathlib

namespace OloCore

/-- Bank state vector containing regulatory metrics
(struct `BankState` in `src/core/lagrangian.rs`). -/
structure BankState where
  tier1_capital : ℝ
  total_assets : ℝ
  liquidity_coverage : ℝ
  entropy_index : ℝ

/-- Configuration for Lagrangian multiplier calculation
(struct `LagrangianConfig` in `src/core/lagrangian.rs`). -/
structure LagrangianConfig where
  lambda_sensitivity : ℝ
  regulatory_min_capital : ℝ

/-- `impl Default for LagrangianConfig`: sensitivity 2.0, minimum 0.08. -/
noncomputable def LagrangianConfig.default : LagrangianConfig :=
  { lambda_sensitivity := 2, regulatory_min_capital := 0.08 }

/-- STEP 1 of `compute_fragility`:
`bank.tier1_capital - (bank.total_assets * config.regulatory_min_capital)`. -/
noncomputable def constraint_distance (bank : BankState) (config : LagrangianConfig) : ℝ :=
  bank.tier1_capital - bank.total_assets * config.regulatory_min_capital

/-- STEP 2 of `compute_fragility`: the Lagrangian multiplier λ.
`if constraint_distance <= 0.0 { 1000.0 } else { sens * (-1.0 * d).exp() }`. -/
noncomputable def lambdaMultiplier (bank : BankState) (config : LagrangianConfig) : ℝ :=
  if constraint_distance bank config ≤ 0 then 1000
  else config.lambda_sensitivity * Real.exp (-1 * constraint_distance bank config)

/-- STEP 3 of `compute_fragility`: `bank.entropy_index * 1.5`. -/
noncomputable def entropy_penalty (bank : BankState) : ℝ :=
  bank.entropy_index * 1.5

/-- STEP 4 of `compute_fragility`: `(1.0 / bank.liquidity_coverage) * 10.0`
(the source has no guard on the sign of `liquidity_coverage`). -/
noncomputable def liquidity_stress (bank : BankState) : ℝ :=
  (1 / bank.liquidity_coverage) * 10

/-- STEP 5 of `compute_fragility`: `lambda + entropy_penalty + liquidity_stress`. -/
noncomputable def raw_score (bank : BankState) (config : LagrangianConfig) : ℝ :=
  lambdaMultiplier bank config + entropy_penalty bank + liquidity_stress bank

/-- `pub fn compute_fragility(bank, config) -> f64` in `src/core/lagrangian.rs`:
STEP 6 sigmoid normalization `100.0 * (raw / (raw + 50.0))` followed by the
defensive clamp `normalized_score.max(0.0).min(100.0)`. -/
noncomputable def compute_fragility (bank : BankState) (config : LagrangianConfig) : ℝ :=
  min (max (100 * (raw_score bank config / (raw_score bank config + 50))) 0) 100

/-- Claim C2: for every bank state and every scoring configuration,
`compute_fragility` returns a value in the closed interval [0, 100]. -/
theorem compute_fragility_bounded (bank : BankState) (config : LagrangianConfig) :
    0 ≤ compute_fragility bank config ∧ compute_fragility bank config ≤ 100 := by
  unfold compute_fragility
  constructor
  · exact le_min (le_max_right _ _) (by norm_num)
  · exact min_le_right _ _

/-- Monte Carlo configuration
(struct `MonteCarloConfig` in `src/simulation/monte_carlo.rs`). -/
structure MonteCarloConfig where
  num_simulations : ℕ
  seed : ℕ
  shock_size : ℝ
  num_threads : ℕ

/-- Simulation result
(struct `SimulationResult` in `src/simulation/monte_carlo.rs`). -/
structure SimulationResult where
  fragilities : List ℝ
  mean : ℝ
  std_dev : ℝ
  var_95 : ℝ
  var_99 : ℝ
  max_fragility : ℝ

/-- The perturbed state built inside the parallel map of `run_simulation`:
each field is `(base_field * (1.0 + shock_component * 0.01)).max(0.0)`,
the four shock components applied positionally to the four fields. -/
noncomputable def shockedState (base : BankState) (s : ℝ × ℝ × ℝ × ℝ) : BankState :=
  { tier1_capital := max (base.tier1_capital * (1 + s.1 * 0.01)) 0
    total_assets := max (base.total_assets * (1 + s.2.1 * 0.01)) 0
    liquidity_coverage := max (base.liquidity_coverage * (1 + s.2.2.1 * 0.01)) 0
    entropy_index := max (base.entropy_index * (1 + s.2.2.2 * 0.01)) 0 }

/-- The shock vector generated upfront by `run_simulation`: path `i` draws
four consecutive samples of `Normal::new(0.0, shock_size)` from
`StdRng::seed_from_u64(seed)`.  The PRNG and the normal sampler are a
deterministic external library (`rand`/`rand_distr`): sampling
`Normal(0, σ)` yields `σ` times a standard-normal draw, and the stream of
standard-normal draws is a pure function of the seed, abstracted here as
the parameter `stdN : seed → draw index → ℝ`. -/
noncomputable def shocksFor (stdN : ℕ → ℕ → ℝ) (mc : MonteCarloConfig) :
    List (ℝ × ℝ × ℝ × ℝ) :=
  (List.range mc.num_simulations).map fun i =>
    (mc.shock_size * stdN mc.seed (4 * i),
     mc.shock_size * stdN mc.seed (4 * i + 1),
     mc.shock_size * stdN mc.seed (4 * i + 2),
     mc.shock_size * stdN mc.seed (4 * i + 3))

/-- The per-path fragility list of `run_simulation`: the parallel
`par_iter().map(..).collect()` over the pre-generated shocks.  Rayon's
indexed `collect` preserves path order, so it is an ordinary map. -/
noncomputable def pathScores (stdN : ℕ → ℕ → ℝ) (base : BankState)
    (lag : LagrangianConfig) (mc : MonteCarloConfig) : List ℝ :=
  (shocksFor stdN mc).map fun s => compute_fragility (shockedState base s) lag

/-- `let mut sorted = fragilities.clone(); sorted.sort_by(partial_cmp)`:
an ascending sort of a copy of the scores. -/
noncomputable def sortScores (l : List ℝ) : List ℝ :=
  l.insertionSort (· ≤ ·)

/-- `fragilities.iter().sum::<f64>() / fragilities.len() as f64`. -/
noncomputable def meanOf (l : List ℝ) : ℝ :=
  l.sum / l.length

/-- `fragilities.iter().map(|x| (x - mean).powi(2)).sum::<f64>() / len`
(population variance: divide by N). -/
noncomputable def varianceOf (l : List ℝ) : ℝ :=
  (l.map fun x => (x - meanOf l) ^ 2).sum / l.length

/-- `(q * fragilities.len() as f64) as usize`: the `as usize` cast of a
non-negative float truncates, i.e. takes the floor. -/
noncomputable def varIndex (q : ℝ) (n : ℕ) : ℕ :=
  ⌊q * n⌋₊

/-- `pub fn run_simulation(base_state, lag_config, mc_config)` in
`src/simulation/monte_carlo.rs`, with panics made explicit as errors:

* `Normal::new(0.0, shock_size).unwrap()` panics when `shock_size < 0`
  (`rand_distr` rejects a negative standard deviation), before any shock
  is drawn or any path evaluated;
* the indexing `sorted[idx.min(sorted.len() - 1)]` and
  `sorted[sorted.len() - 1]` panics exactly when the score list is empty
  (`len() - 1` underflows / indexes out of bounds), i.e. when
  `num_simulations == 0`.  For a nonempty list every used index is at most
  `len - 1`, so indexing is modelled total via `getD`.

`mc.num_threads` is never read by the source function. -/
noncomputable def run_simulation (stdN : ℕ → ℕ → ℝ) (base_state : BankState)
    (lag_config : LagrangianConfig) (mc_config : MonteCarloConfig) :
    Except String SimulationResult :=
  if mc_config.shock_size < 0 then
    Except.error "panicked: called unwrap on an Err value (Normal::new)"
  else
    let fragilities := pathScores stdN base_state lag_config mc_config
    let sorted := sortScores fragilities
    if fragilities.length = 0 then
      Except.error "panicked: index out of bounds"
    else
      Except.ok
        { fragilities := fragilities
          mean := meanOf fragilities
          std_dev := Real.sqrt (varianceOf fragilities)
          var_95 := sorted.getD (min (varIndex 0.95 fragilities.length) (sorted.length - 1)) 0
          var_99 := sorted.getD (min (varIndex 0.99 fragilities.length) (sorted.length - 1)) 0
          max_fragility := sorted.getD (sorted.length - 1) 0 }

/-- Claim C1: `run_simulation` is a pure function of the base state, the
scoring config, the path count, the seed and the shock size; the
`num_threads` concurrency hint is never read, so two invocations with
identical inputs — whatever their `num_threads` — produce identical
results, in particular identical fragility sequences in path order. -/
theorem run_simulation_reproducible (stdN : ℕ → ℕ → ℝ) (base : BankState)
    (lag : LagrangianConfig) (mc mc' : MonteCarloConfig)
    (h1 : mc.num_simulations = mc'.num_simulations) (h2 : mc.seed = mc'.seed)
    (h3 : mc.shock_size = mc'.shock_size) :
    run_simulation stdN base lag mc = run_simulation stdN base lag mc' := by
  cases mc
  cases mc'
  simp only [MonteCarloConfig.mk.injEq] at h1 h2 h3 ⊢
  subst h1; subst h2; subst h3
  rfl

/-- Concrete instance of claim C1: thread hints 1 and 64 give the same
result on a 3-path run. -/
theorem run_simulation_reproducible_witness :
    run_simulation (fun _ _ => 0) ⟨1000, 10000, 1.2, 2⟩ ⟨2, 0.08⟩ ⟨3, 42, 2, 1⟩ =
      run_simulation (fun _ _ => 0) ⟨1000, 10000, 1.2, 2⟩ ⟨2, 0.08⟩ ⟨3, 42, 2, 64⟩ :=
  run_simulation_reproducible _ _ _ _ _ rfl rfl rfl

/-- Claim C7: each field of the perturbed state evaluated on a path equals
`max(0, field * (1 + shock_component * 0.01))`, and in particular no
perturbed state has a negative field. -/
theorem shockedState_spec (base : BankState) (s : ℝ × ℝ × ℝ × ℝ) :
    (shockedState base s).tier1_capital = max (base.tier1_capital * (1 + s.1 * 0.01)) 0 ∧
    (shockedState base s).total_assets = max (base.total_assets * (1 + s.2.1 * 0.01)) 0 ∧
    (shockedState base s).liquidity_coverage =
      max (base.liquidity_coverage * (1 + s.2.2.1 * 0.01)) 0 ∧
    (shockedState base s).entropy_index = max (base.entropy_index * (1 + s.2.2.2 * 0.01)) 0 ∧
    0 ≤ (shockedState base s).tier1_capital ∧
    0 ≤ (shockedState base s).total_assets ∧
    0 ≤ (shockedState base s).liquidity_coverage ∧
    0 ≤ (shockedState base s).entropy_index := by
  refine ⟨rfl, rfl, rfl, rfl, ?_, ?_, ?_, ?_⟩ <;> exact le_max_right _ _

/-- Claim C10: a negative `shock_size` makes the unwrapped `Normal::new`
constructor panic before any path is evaluated: `run_simulation` returns
the panic, the same one whatever the state, the config or the PRNG stream,
and no `SimulationResult` is produced; no boundary validation rejects the
configuration earlier. -/
theorem run_simulation_negative_shock (stdN : ℕ → ℕ → ℝ) (base : BankState)
    (lag : LagrangianConfig) (mc : MonteCarloConfig) (h : mc.shock_size < 0) :
    run_simulation stdN base lag mc =
      Except.error "panicked: called unwrap on an Err value (Normal::new)" := by
  unfold run_simulation
  rw [if_pos h]

/-- Concrete instance of claim C10: `shock_size = -1` panics. -/
theorem run_simulation_negative_shock_witness :
    (-1 : ℝ) < 0 ∧
      run_simulation (fun _ _ => 0) ⟨1, 1, 1, 1⟩ ⟨2, 0.08⟩ ⟨5, 42, -1, 0⟩ =
        Except.error "panicked: called unwrap on an Err value (Normal::new)" :=
  ⟨by norm_num, run_simulation_negative_shock _ _ _ _ (by norm_num)⟩

/-- Claim C4 (failing input): with `num_simulations = 0` and a valid shock
size, `run_simulation` panics in the statistics step (`sorted.len() - 1`
underflows and the indexing of the empty sorted vector is out of bounds)
instead of reporting an explicit empty-input condition. -/
theorem run_simulation_empty_run_panics :
    run_simulation (fun _ _ => 0) ⟨1000, 10000, 1.2, 2⟩ ⟨2, 0.08⟩ ⟨0, 42, 2, 0⟩ =
      Except.error "panicked: index out of bounds" := by
  unfold run_simulation
  rw [if_neg (by norm_num)]
  simp [pathScores, shocksFor]

/-- One shock tuple per path: the score list has exactly
`num_simulations` entries. -/
theorem length_pathScores (stdN : ℕ → ℕ → ℝ) (base : BankState)
    (lag : LagrangianConfig) (mc : MonteCarloConfig) :
    (pathScores stdN base lag mc).length = mc.num_simulations := by
  simp [pathScores, shocksFor]

/-- Sorting a copy keeps the length. -/
theorem length_sortScores (l : List ℝ) : (sortScores l).length = l.length :=
  (List.perm_insertionSort _ l).length_eq

/-- The sorted copy is ascending. -/
theorem sortScores_sorted (l : List ℝ) : (sortScores l).Sorted (· ≤ ·) :=
  List.sorted_insertionSort _ l

/-- The sorted copy is a permutation of the scores. -/
theorem sortScores_perm (l : List ℝ) : (sortScores l).Perm l :=
  List.perm_insertionSort _ l

/-- On a valid shock size and a positive path count, `run_simulation`
returns the aggregated result built from the path-ordered score list. -/
theorem run_simulation_ok (stdN : ℕ → ℕ → ℝ) (base : BankState)
    (lag : LagrangianConfig) (mc : MonteCarloConfig)
    (h0 : 0 ≤ mc.shock_size) (h1 : mc.num_simulations ≠ 0) :
    run_simulation stdN base lag mc =
      Except.ok
        { fragilities := pathScores stdN base lag mc
          mean := meanOf (pathScores stdN base lag mc)
          std_dev := Real.sqrt (varianceOf (pathScores stdN base lag mc))
          var_95 := (sortScores (pathScores stdN base lag mc)).getD
            (min (varIndex 0.95 (pathScores stdN base lag mc).length)
              ((sortScores (pathScores stdN base lag mc)).length - 1)) 0
          var_99 := (sortScores (pathScores stdN base lag mc)).getD
            (min (varIndex 0.99 (pathScores stdN base lag mc).length)
              ((sortScores (pathScores stdN base lag mc)).length - 1)) 0
          max_fragility := (sortScores (pathScores stdN base lag mc)).getD
            ((sortScores (pathScores stdN base lag mc)).length - 1) 0 } := by
  unfold run_simulation
  rw [if_neg (not_lt.mpr h0), if_neg (by rw [length_pathScores]; exact h1)]

/-- Claim C9: a run with exactly one path returns standard deviation 0 and
`var_95 = var_99 = max_fragility = fragilities[0]`. -/
theorem run_simulation_single_path (stdN : ℕ → ℕ → ℝ) (base : BankState)
    (lag : LagrangianConfig) (mc : MonteCarloConfig)
    (h1 : mc.num_simulations = 1) (h0 : 0 ≤ mc.shock_size) :
    ∃ res : SimulationResult, run_simulation stdN base lag mc = Except.ok res ∧
      res.std_dev = 0 ∧ res.fragilities.length = 1 ∧
      res.var_95 = res.fragilities.headI ∧ res.var_99 = res.fragilities.headI ∧
      res.max_fragility = res.fragilities.headI := by
  obtain ⟨x, hx⟩ : ∃ x, pathScores stdN base lag mc = [x] :=
    List.length_eq_one.mp ((length_pathScores stdN base lag mc).trans h1)
  refine ⟨_, run_simulation_ok stdN base lag mc h0 (by rw [h1]; exact one_ne_zero), ?_, ?_, ?_, ?_, ?_⟩
  · show Real.sqrt (varianceOf (pathScores stdN base lag mc)) = 0
    rw [hx]
    simp [varianceOf, meanOf]
  · rw [hx]; rfl
  · show (sortScores (pathScores stdN base lag mc)).getD _ 0 = _
    rw [hx]
    simp [sortScores, List.insertionSort, List.orderedInsert, varIndex]
  · show (sortScores (pathScores stdN base lag mc)).getD _ 0 = _
    rw [hx]
    simp [sortScores, List.insertionSort, List.orderedInsert, varIndex]
  · show (sortScores (pathScores stdN base lag mc)).getD _ 0 = _
    rw [hx]
    simp [sortScores, List.insertionSort, List.orderedInsert]

/-- Concrete instance of claim C9: a 1-path run. -/
theorem run_simulation_single_path_witness :
    (0 : ℝ) ≤ 2 ∧
      ∃ res : SimulationResult,
        run_simulation (fun _ _ => 0) ⟨1000, 10000, 1.2, 2⟩ ⟨2, 0.08⟩ ⟨1, 42, 2, 0⟩ =
            Except.ok res ∧
          res.std_dev = 0 ∧ res.fragilities.length = 1 ∧
          res.var_95 = res.fragilities.headI ∧ res.var_99 = res.fragilities.headI ∧
          res.max_fragility = res.fragilities.headI :=
  ⟨by norm_num,
   run_simulation_single_path (fun _ _ => 0) ⟨1000, 10000, 1.2, 2⟩ ⟨2, 0.08⟩
     ⟨1, 42, 2, 0⟩ rfl (by norm_num)⟩

/-- Claim C5: on a nonempty run, `var_95` and `var_99` are the elements at
ranks `min ⌊0.95 N⌋ (N-1)` and `min ⌊0.99 N⌋ (N-1)` of the ascending
sorted copy of the scores, `max_fragility` is the last element of that
sorted copy, and the `fragilities` field itself is the path-ordered score
list, untouched by the sort (which acts on a copy, here witnessed as
ascending and a permutation of `fragilities`). -/
theorem run_simulation_quantiles (stdN : ℕ → ℕ → ℝ) (base : BankState)
    (lag : LagrangianConfig) (mc : MonteCarloConfig)
    (h0 : 0 ≤ mc.shock_size) (h1 : mc.num_simulations ≠ 0) :
    ∃ res : SimulationResult, run_simulation stdN base lag mc = Except.ok res ∧
      res.fragilities = pathScores stdN base lag mc ∧
      (sortScores res.fragilities).Sorted (· ≤ ·) ∧
      (sortScores res.fragilities).Perm res.fragilities ∧
      res.var_95 = (sortScores res.fragilities).getD
        (min (varIndex 0.95 res.fragilities.length) (res.fragilities.length - 1)) 0 ∧
      res.var_99 = (sortScores res.fragilities).getD
        (min (varIndex 0.99 res.fragilities.length) (res.fragilities.length - 1)) 0 ∧
      res.max_fragility = (sortScores res.fragilities).getD (res.fragilities.length - 1) 0 := by
  refine ⟨_, run_simulation_ok stdN base lag mc h0 h1, rfl,
    sortScores_sorted _, sortScores_perm _, ?_, ?_, ?_⟩ <;>
    simp only [length_sortScores]

/-- Concrete instance of claim C5: a 3-path run. -/
theorem run_simulation_quantiles_witness :
    (0 : ℝ) ≤ 2 ∧ (3 : ℕ) ≠ 0 ∧
      ∃ res : SimulationResult,
        run_simulation (fun _ _ => 0) ⟨1000, 10000, 1.2, 2⟩ ⟨2, 0.08⟩ ⟨3, 42, 2, 0⟩ =
            Except.ok res ∧
          res.fragilities =
            pathScores (fun _ _ => 0) ⟨1000, 10000, 1.2, 2⟩ ⟨2, 0.08⟩ ⟨3, 42, 2, 0⟩ ∧
          (sortScores res.fragilities).Sorted (· ≤ ·) ∧
          (sortScores res.fragilities).Perm res.fragilities ∧
          res.var_95 = (sortScores res.fragilities).getD
            (min (varIndex 0.95 res.fragilities.length) (res.fragilities.length - 1)) 0 ∧
          res.var_99 = (sortScores res.fragilities).getD
            (min (varIndex 0.99 res.fragilities.length) (res.fragilities.length - 1)) 0 ∧
          res.max_fragility = (sortScores res.fragilities).getD (res.fragilities.length - 1) 0 :=
  ⟨by norm_num, by norm_num,
   run_simulation_quantiles (fun _ _ => 0) ⟨1000, 10000, 1.2, 2⟩ ⟨2, 0.08⟩
     ⟨3, 42, 2, 0⟩ (by norm_num) (by norm_num)⟩

/-- In an ascending list, an earlier in-bounds element is at most a later
in-bounds one. -/
theorem sorted_getD_mono {l : List ℝ} (hs : l.Sorted (· ≤ ·)) {i j : ℕ}
    (hij : i ≤ j) (hj : j < l.length) : l.getD i 0 ≤ l.getD j 0 := by
  rw [List.getD_eq_get l 0 (lt_of_le_of_lt hij hj), List.getD_eq_get l 0 hj]
  exact hs.rel_get_of_le hij

/-- Claim C6: on a nonempty run, `var_95 ≤ var_99 ≤ max_fragility`. -/
theorem run_simulation_ordering (stdN : ℕ → ℕ → ℝ) (base : BankState)
    (lag : LagrangianConfig) (mc : MonteCarloConfig)
    (h0 : 0 ≤ mc.shock_size) (h1 : mc.num_simulations ≠ 0) :
    ∃ res : SimulationResult, run_simulation stdN base lag mc = Except.ok res ∧
      res.var_95 ≤ res.var_99 ∧ res.var_99 ≤ res.max_fragility := by
  refine ⟨_, run_simulation_ok stdN base lag mc h0 h1, ?_, ?_⟩
  all_goals
    have hlen : (sortScores (pathScores stdN base lag mc)).length = mc.num_simulations :=
      (length_sortScores _).trans (length_pathScores _ _ _ _)
    have hpos : 0 < (sortScores (pathScores stdN base lag mc)).length := by
      rw [hlen]; exact Nat.pos_of_ne_zero h1
    have hsub : (sortScores (pathScores stdN base lag mc)).length - 1 <
        (sortScores (pathScores stdN base lag mc)).length := Nat.sub_lt hpos one_pos
  · apply sorted_getD_mono (sortScores_sorted _) _
      (lt_of_le_of_lt (min_le_right _ _) hsub)
    exact min_le_min
      (by
        apply Nat.floor_mono
        have : (0 : ℝ) ≤ (pathScores stdN base lag mc).length := Nat.cast_nonneg _
        nlinarith) le_rfl
  · exact sorted_getD_mono (sortScores_sorted _) (min_le_right _ _) hsub

/-- Concrete instance of claim C6: a 2-path run. -/
theorem run_simulation_ordering_witness :
    (0 : ℝ) ≤ 1 ∧ (2 : ℕ) ≠ 0 ∧
      ∃ res : SimulationResult,
        run_simulation (fun _ _ => 0) ⟨1000, 10000, 1.2, 2⟩ ⟨2, 0.08⟩ ⟨2, 7, 1, 0⟩ =
            Except.ok res ∧
          res.var_95 ≤ res.var_99 ∧ res.var_99 ≤ res.max_fragility :=
  ⟨by norm_num, by norm_num,
   run_simulation_ordering (fun _ _ => 0) ⟨1000, 10000, 1.2, 2⟩ ⟨2, 0.08⟩
     ⟨2, 7, 1, 0⟩ (by norm_num) (by norm_num)⟩

/-- Claim C3 (failing input): the liquidity stress term has no guard: at
`liquidity_coverage = -1` it is `(1 / -1) * 10 = -10`, a negative
contribution, and the resulting fragility is strictly lower than the same
bank's fragility at the healthy `liquidity_coverage = 1` — the opposite of
treating a non-positive ratio as maximal stress. -/
theorem liquidity_stress_no_guard :
    liquidity_stress ⟨5000, 100000, -1, 2⟩ = -10 ∧
      compute_fragility ⟨5000, 100000, -1, 2⟩ ⟨2, 0.08⟩ <
        compute_fragility ⟨5000, 100000, 1, 2⟩ ⟨2, 0.08⟩ := by
  constructor
  · norm_num [liquidity_stress]
  · have h1 : raw_score ⟨5000, 100000, -1, 2⟩ ⟨2, 0.08⟩ = 993 := by
      unfold raw_score lambdaMultiplier
      rw [if_pos (by norm_num [constraint_distance])]
      norm_num [entropy_penalty, liquidity_stress]
    have h2 : raw_score ⟨5000, 100000, 1, 2⟩ ⟨2, 0.08⟩ = 1013 := by
      unfold raw_score lambdaMultiplier
      rw [if_pos (by norm_num [constraint_distance])]
      norm_num [entropy_penalty, liquidity_stress]
    unfold compute_fragility
    rw [h1, h2]
    rw [max_eq_left (by norm_num), max_eq_left (by norm_num),
      min_eq_left (by norm_num), min_eq_left (by norm_num)]
    norm_num

/-- The multiplier is non-negative whenever the sensitivity is. -/
theorem lambdaMultiplier_nonneg (bank : BankState) (config : LagrangianConfig)
    (hs : 0 ≤ config.lambda_sensitivity) : 0 ≤ lambdaMultiplier bank config := by
  unfold lambdaMultiplier
  split
  · norm_num
  · exact mul_nonneg hs (Real.exp_pos _).le

/-- For sensitivities in `[0, 1000]` the multiplier never exceeds the
insolvency cap, so it is antitone in the constraint distance, hence in
`tier1_capital` with the other fields fixed. -/
theorem lambdaMultiplier_anti (b : BankState) (config : LagrangianConfig) (t t' : ℝ)
    (hs0 : 0 ≤ config.lambda_sensitivity) (hs1 : config.lambda_sensitivity ≤ 1000)
    (ht : t ≤ t') :
    lambdaMultiplier { b with tier1_capital := t' } config ≤
      lambdaMultiplier { b with tier1_capital := t } config := by
  unfold lambdaMultiplier constraint_distance
  simp only
  by_cases h' : t' - b.total_assets * config.regulatory_min_capital ≤ 0
  · rw [if_pos h', if_pos (by linarith)]
  · rw [if_neg h']
    push_neg at h'
    have hexp : Real.exp (-1 * (t' - b.total_assets * config.regulatory_min_capital)) ≤ 1 := by
      rw [Real.exp_le_one_iff]
      linarith
    by_cases h : t - b.total_assets * config.regulatory_min_capital ≤ 0
    · rw [if_pos h]
      calc config.lambda_sensitivity *
            Real.exp (-1 * (t' - b.total_assets * config.regulatory_min_capital)) ≤
          config.lambda_sensitivity * 1 := by
            exact mul_le_mul_of_nonneg_left hexp hs0
        _ ≤ 1000 := by linarith
    · rw [if_neg h]
      exact mul_le_mul_of_nonneg_left
        (Real.exp_le_exp.mpr (by linarith)) hs0

/-- The sigmoid normalization `x ↦ 100 x / (x + 50)` is monotone on
positive raw scores. -/
theorem sigmoid_mono {a b : ℝ} (ha : 0 < a) (hab : a ≤ b) :
    100 * (a / (a + 50)) ≤ 100 * (b / (b + 50)) := by
  have ha50 : (0 : ℝ) < a + 50 := by linarith
  have hb50 : (0 : ℝ) < b + 50 := by linarith
  have : a / (a + 50) ≤ b / (b + 50) := by
    rw [div_le_div_iff ha50 hb50]
    nlinarith
  linarith

/-- Claim C8, amended: for configurations whose sensitivity lies in
`[0, 1000]` and states with positive liquidity coverage and non-negative
entropy index, `compute_fragility` is monotonically non-increasing in
`tier1_capital`, the other fields and the configuration held fixed. -/
theorem compute_fragility_anti_tier1 (b : BankState) (config : LagrangianConfig)
    (t t' : ℝ)
    (hs0 : 0 ≤ config.lambda_sensitivity) (hs1 : config.lambda_sensitivity ≤ 1000)
    (hl : 0 < b.liquidity_coverage) (he : 0 ≤ b.entropy_index) (ht : t ≤ t') :
    compute_fragility { b with tier1_capital := t' } config ≤
      compute_fragility { b with tier1_capital := t } config := by
  have hliq : 0 < liquidity_stress { b with tier1_capital := t' } := by
    unfold liquidity_stress
    simp only
    positivity
  have hent : 0 ≤ entropy_penalty { b with tier1_capital := t' } := by
    unfold entropy_penalty
    simp only
    positivity
  have hraw' : 0 < raw_score { b with tier1_capital := t' } config := by
    unfold raw_score
    have := lambdaMultiplier_nonneg { b with tier1_capital := t' } config hs0
    linarith
  have hraw : raw_score { b with tier1_capital := t' } config ≤
      raw_score { b with tier1_capital := t } config := by
    unfold raw_score
    have hlam := lambdaMultiplier_anti b config t t' hs0 hs1 ht
    have hent' : entropy_penalty { b with tier1_capital := t' } =
        entropy_penalty { b with tier1_capital := t } := rfl
    have hliq' : liquidity_stress { b with tier1_capital := t' } =
        liquidity_stress { b with tier1_capital := t } := rfl
    rw [hent', hliq']
    linarith
  unfold compute_fragility
  exact min_le_min (max_le_max (sigmoid_mono hraw' hraw) le_rfl) le_rfl

/-- Concrete instance of the amended claim C8: with the default
configuration, raising `tier1_capital` from 5000 to 6000 does not raise
the fragility. -/
theorem compute_fragility_anti_tier1_witness :
    (0 : ℝ) ≤ 2 ∧ (2 : ℝ) ≤ 1000 ∧ (0 : ℝ) < 1.5 ∧ (0 : ℝ) ≤ 2 ∧ (5000 : ℝ) ≤ 6000 ∧
      compute_fragility ⟨6000, 100000, 1.5, 2⟩ ⟨2, 0.08⟩ ≤
        compute_fragility ⟨5000, 100000, 1.5, 2⟩ ⟨2, 0.08⟩ :=
  ⟨by norm_num, by norm_num, by norm_num, by norm_num, by norm_num,
   compute_fragility_anti_tier1 ⟨0, 100000, 1.5, 2⟩ ⟨2, 0.08⟩ 5000 6000
     (by norm_num) (by norm_num) (by norm_num) (by norm_num) (by norm_num)⟩

/-- Claim C8 as stated is false: with sensitivity 4000 (> 1000), raising
`tier1_capital` from 8 to `8 + log 2` moves the multiplier from the
insolvency cap 1000 to `4000 · exp(−log 2) = 2000`, so the fragility
strictly increases although the capital buffer grew. -/
theorem compute_fragility_not_anti_tier1 :
    (8 : ℝ) < 8 + Real.log 2 ∧
      compute_fragility ⟨8, 100, 1, 0⟩ ⟨4000, 0.08⟩ <
        compute_fragility ⟨8 + Real.log 2, 100, 1, 0⟩ ⟨4000, 0.08⟩ := by
  have hlog : 0 < Real.log 2 := Real.log_pos (by norm_num)
  constructor
  · linarith
  · have hcd : constraint_distance ⟨8 + Real.log 2, 100, 1, 0⟩ ⟨4000, 0.08⟩ =
        Real.log 2 := by
      unfold constraint_distance
      norm_num
    have h1 : raw_score ⟨8, 100, 1, 0⟩ ⟨4000, 0.08⟩ = 1010 := by
      unfold raw_score lambdaMultiplier
      rw [if_pos (by norm_num [constraint_distance])]
      norm_num [entropy_penalty, liquidity_stress]
    have h2 : raw_score ⟨8 + Real.log 2, 100, 1, 0⟩ ⟨4000, 0.08⟩ = 2010 := by
      unfold raw_score lambdaMultiplier
      rw [hcd, if_neg (by linarith), neg_one_mul, Real.exp_neg,
        Real.exp_log (by norm_num : (0 : ℝ) < 2)]
      norm_num [entropy_penalty, liquidity_stress]
    unfold compute_fragility
    rw [h1, h2,
      max_eq_left (by norm_num), max_eq_left (by norm_num),
      min_eq_left (by norm_num), min_eq_left (by norm_num)]
    norm_num

end OloCore
